import Mathlib

/-!
Verification of the value-type support layer of a HIDL runtime
(`HidlSupport.cpp`): the `hidl_string` owned-or-borrowed byte string, the
`hidl_handle` owned-or-borrowed native-handle wrapper, and the
`getTransport` / `getTransportFromManifest` transport resolver.

Modelling conventions:
- A heap buffer is a pair of an address (pointer value) and the byte
  contents stored there; pointer comparison is address comparison.
- `malloc` is modelled by passing in a fresh address; freshness with
  respect to the empty-string literal is a side condition where needed.
- `free` / `native_handle_close` / `native_handle_delete` are modelled as
  emitted events, so "releases at most once" is a statement about event
  lists.
- `LOG(FATAL)` aborts the process; a fatal outcome carries the state of
  the object at the abort point.
-/

/-- A byte buffer living at some address: the pointer value together with
the bytes stored behind it. Pointer equality is `addr` equality. -/
structure HBuffer where
  addr : Nat
  bytes : List Nat
deriving DecidableEq, Repr

/-- `static const char *const kEmptyString = "";` — the process-lifetime
empty string literal. We place it at address 0; its contents are the single
terminating zero byte. -/
def kEmptyString : HBuffer := ⟨0, [0]⟩

/-- `UINT32_MAX`, the size ceiling checked by `copyFrom` and
`setToExternal`. -/
def UINT32_MAX : Nat := 2 ^ 32 - 1

/-- The fields of `hidl_string`: buffer pointer, 32-bit length, ownership
flag. -/
structure hidl_string where
  mBuffer : HBuffer
  mSize : Nat
  mOwnsBuffer : Bool
deriving DecidableEq, Repr

/-- Default construction: `mBuffer(kEmptyString), mSize(0),
mOwnsBuffer(false)`. -/
def hidl_string.mkDefault : hidl_string := ⟨kEmptyString, 0, false⟩

/-- `c_str()` returns the buffer pointer. -/
def hidl_string.c_str (s : hidl_string) : HBuffer := s.mBuffer

/-- `size()` returns `mSize`. -/
def hidl_string.size (s : hidl_string) : Nat := s.mSize

/-- `empty()` returns `mSize == 0`. -/
def hidl_string.empty (s : hidl_string) : Bool := s.mSize == 0

/-- `operator std::string() const { return std::string(mBuffer, mSize); }`
— copy the first `mSize` bytes of the buffer into a host string. -/
def hidl_string.toStdString (s : hidl_string) : List Nat :=
  s.mBuffer.bytes.take s.mSize

/-- `copyFrom(data, size)`: fatal if `size > UINT32_MAX`; otherwise
`malloc(size + 1)` (modelled by the fresh address `a`), copy the bytes,
append a terminating zero, own the new buffer. The input `data` is the
byte sequence of length `size` that `memcpy` reads. -/
def hidl_string.copyFrom (data : List Nat) (a : Nat) : Option hidl_string :=
  if data.length > UINT32_MAX then
    none
  else
    some ⟨⟨a, data ++ [0]⟩, data.length, true⟩

/-- `clear()`: `free` the buffer iff `mOwnsBuffer && (mBuffer !=
kEmptyString)` (a pointer comparison), then reset to the default state.
Returns the new state and the address freed, if any. -/
def hidl_string.clear (s : hidl_string) : hidl_string × Option Nat :=
  (⟨kEmptyString, 0, false⟩,
    if s.mOwnsBuffer ∧ s.mBuffer.addr ≠ kEmptyString.addr then
      some s.mBuffer.addr
    else
      none)

/-- `~hidl_string() { clear(); }` — destruction is `clear`; we keep the
freed-address event. -/
def hidl_string.dtor (s : hidl_string) : hidl_string × Option Nat :=
  hidl_string.clear s

/-- `moveFrom(other)`: copy the three fields of `other` into `this`
(whose resources are assumed freed), then set `other.mOwnsBuffer = false`.
Returns (new this, new other). Note that `other.mBuffer` and `other.mSize`
are left untouched. -/
def hidl_string.moveFrom (other : hidl_string) :
    hidl_string × hidl_string :=
  (⟨other.mBuffer, other.mSize, other.mOwnsBuffer⟩,
    { other with mOwnsBuffer := false })

/-- Move constructor `hidl_string(hidl_string &&other)`: default-construct
then `moveFrom(other)`; the default-constructed fields are all overwritten.
Returns (constructed value, new other). -/
def hidl_string.moveCtor (other : hidl_string) :
    hidl_string × hidl_string :=
  hidl_string.moveFrom other

/-- Move assignment `operator=(hidl_string &&other)` for distinct objects
(the `this != &other` branch): `clear()` then `moveFrom(other)`. Returns
(new this, new other, address freed by the clear, if any). -/
def hidl_string.moveAssign (this other : hidl_string) :
    hidl_string × hidl_string × Option Nat :=
  ((hidl_string.moveFrom other).1, (hidl_string.moveFrom other).2,
    (hidl_string.clear this).2)

/-- Move assignment in the self-move case (`this == &other`): the body is
skipped, the object is returned unchanged. -/
def hidl_string.moveAssignSelf (this : hidl_string) : hidl_string := this

/-- The result of an operation that may hit `LOG(FATAL)`: either a normal
outcome with the address freed along the way (if any), or an abort with
the object's state at the abort point. -/
inductive StrResult where
  | ok (s : hidl_string) (freed : Option Nat)
  | fatal (s : hidl_string)
deriving DecidableEq, Repr

/-- `setToExternal(data, size)`: fatal if `size > UINT32_MAX` (before
anything else); otherwise `clear()`, then adopt `data` as a borrowed
buffer of length `size` with `mOwnsBuffer = false`. -/
def hidl_string.setToExternal (s : hidl_string) (data : HBuffer)
    (size : Nat) : StrResult :=
  if size > UINT32_MAX then
    .fatal s
  else
    .ok ⟨data, size, false⟩ (hidl_string.clear s).2

/-- The `hidl_string` states reachable through the public operations:
default construction; construction from a C string, a pointer plus
length, a host string, or another `hidl_string` (all of which funnel into
`copyFrom` with a freshly `malloc`ed buffer, whose address is distinct
from the empty-string literal); the two ends of a move; `clear`; and a
successful `setToExternal`. Copy and C-string/host-string assignment
produce the same states as the corresponding constructions. -/
inductive ReachableStr : hidl_string → Prop
  | init : ReachableStr hidl_string.mkDefault
  | copyOp (b : List Nat) (a : Nat) (ha : a ≠ kEmptyString.addr)
      (s : hidl_string) (h : hidl_string.copyFrom b a = some s) :
      ReachableStr s
  | moveDst (x : hidl_string) (hx : ReachableStr x) :
      ReachableStr (hidl_string.moveFrom x).1
  | moveSrc (x : hidl_string) (hx : ReachableStr x) :
      ReachableStr (hidl_string.moveFrom x).2
  | clearOp (x : hidl_string) (hx : ReachableStr x) :
      ReachableStr (hidl_string.clear x).1
  | extOp (x : hidl_string) (hx : ReachableStr x) (d : HBuffer) (n : Nat)
      (s : hidl_string) (ev : Option Nat)
      (h : hidl_string.setToExternal x d n = .ok s ev) : ReachableStr s

/-- Reachable invariant: whenever the buffer is owned, its address is not
the empty-string literal (it came from `malloc`). -/
theorem ReachableStr.owned_addr_ne {s : hidl_string}
    (hs : ReachableStr s) (how : s.mOwnsBuffer = true) :
    s.mBuffer.addr ≠ kEmptyString.addr := by
  induction hs with
  | init => simp [hidl_string.mkDefault] at how
  | copyOp b a ha s h =>
      unfold hidl_string.copyFrom at h
      split at h
      · exact absurd h (by simp)
      · cases h.symm
        simpa using ha
  | moveDst x hx ih => exact ih how
  | moveSrc x hx ih => simp [hidl_string.moveFrom] at how
  | clearOp x hx ih => simp [hidl_string.clear] at how
  | extOp x hx d n s ev h ih =>
      unfold hidl_string.setToExternal at h
      split at h
      · exact absurd h (by simp)
      · cases h
        simp at how

/-! ## hidl_handle -/

/-- A release-time event on a native handle record: the external
`native_handle_close` or `native_handle_delete` primitive applied to the
record at the given address. -/
inductive HandleEvent where
  | close (addr : Nat)
  | delete (addr : Nat)
deriving DecidableEq, Repr

/-- The fields of `hidl_handle`: pointer to the native handle record
(`none` is `nullptr`) and ownership flag. -/
structure hidl_handle where
  mHandle : Option Nat
  mOwnsHandle : Bool
deriving DecidableEq, Repr

/-- Default construction: `mHandle = nullptr; mOwnsHandle = false;`. -/
def hidl_handle.mkDefault : hidl_handle := ⟨none, false⟩

/-- Construction from a borrowed record pointer:
`mHandle = handle; mOwnsHandle = false;`. -/
def hidl_handle.fromNative (handle : Option Nat) : hidl_handle :=
  ⟨handle, false⟩

/-- `freeHandle()`: if `mOwnsHandle && mHandle != nullptr`, invoke
`native_handle_close` then `native_handle_delete` on the record and null
out `mHandle` (ownership flag is left as is); otherwise do nothing.
Returns the new state and the emitted events. -/
def hidl_handle.freeHandle (h : hidl_handle) :
    hidl_handle × List HandleEvent :=
  match h.mHandle, h.mOwnsHandle with
  | some a, true => (⟨none, true⟩, [.close a, .delete a])
  | some a, false => (⟨some a, false⟩, [])
  | none, own => (⟨none, own⟩, [])

/-- `~hidl_handle() { freeHandle(); }`. -/
def hidl_handle.dtor (h : hidl_handle) : hidl_handle × List HandleEvent :=
  hidl_handle.freeHandle h

/-- The result of a `hidl_handle` operation that may hit `LOG(FATAL)`:
a normal outcome carrying the events emitted along the way, or an abort. -/
inductive HandleResult where
  | ok (h : hidl_handle) (events : List HandleEvent)
  | fatal
deriving DecidableEq, Repr

/-- Copy assignment `operator=(const hidl_handle &other)` for distinct
objects (the `this != &other` branch): `freeHandle()`, then if `other`
is non-null, `mHandle = native_handle_clone(other.mHandle)` — the clone
outcome is the parameter `cloneResult`; a null clone is fatal — and
`mOwnsHandle = true`; if `other` is null, null and non-owning. -/
def hidl_handle.copyAssign (this other : hidl_handle)
    (cloneResult : Option Nat) : HandleResult :=
  match other.mHandle with
  | some _ =>
    match cloneResult with
    | none => .fatal
    | some a => .ok ⟨some a, true⟩ (hidl_handle.freeHandle this).2
  | none => .ok ⟨none, false⟩ (hidl_handle.freeHandle this).2

/-- Copy assignment in the self-assignment case (`this == &other`): the
body is skipped, the object is returned unchanged and nothing is freed. -/
def hidl_handle.copyAssignSelf (this : hidl_handle) :
    hidl_handle × List HandleEvent := (this, [])

/-- Copy constructor `hidl_handle(const hidl_handle &other)`:
`mOwnsHandle = false; *this = other;` — so the initial `freeHandle` frees
nothing and the outcome is that of copy assignment from a fresh
non-owning object. -/
def hidl_handle.copyCtor (other : hidl_handle) (cloneResult : Option Nat) :
    HandleResult :=
  hidl_handle.copyAssign ⟨none, false⟩ other cloneResult

/-- Move assignment `operator=(hidl_handle &&other)` for distinct objects
(the `this != &other` branch): `freeHandle()`, take `other`'s pointer and
ownership flag, then null out the source and clear its ownership.
Returns (new this, new other, events emitted by the free). -/
def hidl_handle.moveAssign (this other : hidl_handle) :
    hidl_handle × hidl_handle × List HandleEvent :=
  (⟨other.mHandle, other.mOwnsHandle⟩, ⟨none, false⟩,
    (hidl_handle.freeHandle this).2)

/-- Move assignment in the self-move case (`this == &other`): no-op. -/
def hidl_handle.moveAssignSelf (this : hidl_handle) : hidl_handle := this

/-- Move constructor `hidl_handle(hidl_handle &&other)`:
`mOwnsHandle = false; *this = std::move(other);` — the initial
`freeHandle` frees nothing. Returns (constructed value, new other). -/
def hidl_handle.moveCtor (other : hidl_handle) :
    hidl_handle × hidl_handle :=
  ((hidl_handle.moveAssign ⟨none, false⟩ other).1,
    (hidl_handle.moveAssign ⟨none, false⟩ other).2.1)

/-- `setTo(handle, shouldOwn)`: `freeHandle()` then adopt the record with
ownership `shouldOwn`. -/
def hidl_handle.setTo (this : hidl_handle) (handle : Option Nat)
    (shouldOwn : Bool) : hidl_handle × List HandleEvent :=
  (⟨handle, shouldOwn⟩, (hidl_handle.freeHandle this).2)

/-- `getNativeHandle()` / the implicit conversion: the raw pointer. -/
def hidl_handle.getNativeHandle (h : hidl_handle) : Option Nat :=
  h.mHandle

/-! ## Transport resolver -/

/-- `vintf::Transport`: the closed enumeration of transport methods;
`EMPTY` is the sentinel for "unknown / fall back to default". -/
inductive Transport where
  | EMPTY
  | HWBINDER
  | PASSTHROUGH
deriving DecidableEq, Repr

/-- `to_string` on a transport value. -/
def Transport.to_string : Transport → String
  | .EMPTY => ""
  | .HWBINDER => "hwbinder"
  | .PASSTHROUGH => "passthrough"

/-- `vintf::Version`: a (major, minor) package version. -/
structure Version where
  majorVer : Nat
  minorVer : Nat
deriving DecidableEq, Repr

/-- Modelled from the spec: the external `FQName` parser is outside this
repository; the resolver only requires `valid?`, `hasVersion?`,
`package()`, the package major/minor versions, the string rendering, and
`inPackage(prefix)`. We model a parsed name as the record of those
observations. -/
structure FQName where
  isValid : Bool
  hasVersion : Bool
  package : String
  packageMajorVersion : Nat
  packageMinorVersion : Nat
  string : String
deriving DecidableEq, Repr

/-- One string is a character-wise prefix of another. -/
def strHasPrefix (pfx s : String) : Bool :=
  List.isPrefixOf pfx.data s.data

/-- Modelled from the spec: `FQName::inPackage(pkg)` is a prefix match of
the dot-separated package components — the parsed name's package equals
`pkg` or lies strictly below it in the dot-separated namespace (it starts
with `pkg` followed by a dot). -/
def FQName.inPackage (fq : FQName) (pkg : String) : Bool :=
  fq.package == pkg || strHasPrefix (pkg ++ ".") fq.package

/-- Modelled from the spec: the manifest facade — the external
`vintf::HalManifest` exposes one operation to the resolver,
`getTransport(package, version)`. -/
structure HalManifest where
  getTransport : String → Version → Transport

/-- Log severities emitted by the resolver. -/
inductive LogSeverity where
  | DEBUG
  | WARNING
  | ERROR
deriving DecidableEq, Repr

/-- A log record: severity and message text. -/
structure LogEntry where
  severity : LogSeverity
  message : String
deriving DecidableEq, Repr

/-- `getTransportFromManifest(fqName, manifestName, vm)`: a null manifest
yields EMPTY with a warning naming the manifest; a manifest whose entry
for (package, version) is EMPTY yields EMPTY with a warning; otherwise
the entry is returned verbatim with a debug trace. Returns the transport
and the emitted log records. -/
def getTransportFromManifest (fqName : FQName) (manifestName : String)
    (vm : Option HalManifest) : Transport × List LogEntry :=
  match vm with
  | none =>
    (Transport.EMPTY,
      [⟨.WARNING, "getTransportFromManifest: No " ++ manifestName ++
        " manifest defined, using default transport for " ++
        fqName.string⟩])
  | some m =>
    let tr := m.getTransport fqName.package
      ⟨fqName.packageMajorVersion, fqName.packageMinorVersion⟩
    if tr = Transport.EMPTY then
      (tr, [⟨.WARNING, "getTransportFromManifest: Cannot find entry " ++
        fqName.string ++ " in " ++ manifestName ++
        " manifest, using default transport."⟩])
    else
      (tr, [⟨.DEBUG, "getTransportFromManifest: " ++ fqName.string ++
        " declares transport method " ++ Transport.to_string tr ++
        " in " ++ manifestName ++ " manifest"⟩])

/-- `getTransport(name)`: parse `name` (the external parser is the
parameter `parse`); an invalid name or a name without a version yields
EMPTY with an error log; otherwise consult the framework manifest when
the package is in `android.hidl`, the device manifest otherwise. The
framework and device manifest handles (each possibly null) are the
process-scoped accessors, passed as parameters. -/
def getTransport (name : String) (parse : String → FQName)
    (frameworkManifest deviceManifest : Option HalManifest) :
    Transport × List LogEntry :=
  let fqName := parse name
  if fqName.isValid = false then
    (Transport.EMPTY,
      [⟨.ERROR, "getTransport: " ++ name ++
        " is not a valid fully-qualified name."⟩])
  else if fqName.hasVersion = false then
    (Transport.EMPTY,
      [⟨.ERROR, "getTransport: " ++ fqName.string ++
        " does not specify a version. Using default transport."⟩])
  else if FQName.inPackage fqName "android.hidl" then
    getTransportFromManifest fqName "framework" frameworkManifest
  else
    getTransportFromManifest fqName "device" deviceManifest

/-! ## Claims -/

/-- C1, counterexample: move does not reset the source to the empty
sentinel. For the one-byte string produced by `copyFrom` of the byte 65
(i.e. `hidl_string("A")`), after move-construction out of it the source
still reports `size() == 1` (and `empty() == false`), because `moveFrom`
only clears the ownership flag. The claim asserts `x.size() == 0` and
`x.empty() == true` for the moved-from source. -/
theorem hidl_string.move_reset_counterexample :
    hidl_string.copyFrom [65] 1 = some ⟨⟨1, [65, 0]⟩, 1, true⟩ ∧
    ((hidl_string.moveCtor ⟨⟨1, [65, 0]⟩, 1, true⟩).2).size = 1 ∧
    ((hidl_string.moveCtor ⟨⟨1, [65, 0]⟩, 1, true⟩).2).empty = false := by
  decide

/-- C1, amended: after move-constructing or move-assigning x into y, the
destination y holds exactly x's original buffer (hence the original
bytes), length, and ownership flag; the source x keeps its buffer pointer
and length but its ownership flag becomes false (it is not reset to the
empty sentinel, so `x.size()` equals its original size). Self-move is a
no-op. -/
theorem hidl_string.move_semantics_amended (x this : hidl_string) :
    hidl_string.moveCtor x = (x, { x with mOwnsBuffer := false }) ∧
    hidl_string.moveAssign this x =
      (x, { x with mOwnsBuffer := false }, (hidl_string.clear this).2) ∧
    hidl_string.moveAssignSelf x = x :=
  ⟨rfl, rfl, rfl⟩

/-- C2, counterexample: a zero-length `hidl_string` reachable through the
public operations whose buffer is not the empty-string literal and whose
ownership flag is true: constructing from a pointer with length 0 (or
from an empty C/host string) calls `copyFrom`, which `malloc`s a 1-byte
owned buffer. The claim asserts every reachable zero-length value points
at the sentinel with ownership false. -/
theorem hidl_string.zero_length_not_sentinel :
    ReachableStr ⟨⟨1, [0]⟩, 0, true⟩ ∧
    (⟨⟨1, [0]⟩, 0, true⟩ : hidl_string).size = 0 ∧
    ¬ ((⟨⟨1, [0]⟩, 0, true⟩ : hidl_string).c_str.addr = kEmptyString.addr ∧
       (⟨⟨1, [0]⟩, 0, true⟩ : hidl_string).mOwnsBuffer = false) :=
  ⟨ReachableStr.copyOp [] 1 (by decide) _ (by decide), by decide, by decide⟩

/-- C2, amended: a default-constructed `hidl_string` has `c_str()` equal
to the shared process-lifetime empty string literal, `empty() == true`,
and ownership false, and `clear()` re-establishes exactly this state from
any state; however, zero length alone does not imply the sentinel:
constructing or copying from a zero-length source yields an owned
non-sentinel buffer, and `setToExternal` with length 0 yields a borrowed
caller buffer. -/
theorem hidl_string.default_and_clear_sentinel (s : hidl_string) :
    hidl_string.mkDefault.c_str = kEmptyString ∧
    hidl_string.mkDefault.empty = true ∧
    hidl_string.mkDefault.mOwnsBuffer = false ∧
    (hidl_string.clear s).1 = hidl_string.mkDefault :=
  ⟨rfl, rfl, rfl, rfl⟩

/-- C3: `getTransport` returns EMPTY with an error-severity log when the
parsed name is invalid; returns EMPTY with an error-severity log when the
parsed name is valid but lacks a version; and for a valid versioned name
delegates to the framework manifest exactly when the package is in the
reserved `android.hidl` namespace (prefix match), and to the device
manifest otherwise. -/
theorem getTransport_dispatch (name : String) (parse : String → FQName)
    (fw dev : Option HalManifest) :
    ((parse name).isValid = false →
      getTransport name parse fw dev =
        (Transport.EMPTY,
          [⟨.ERROR, "getTransport: " ++ name ++
            " is not a valid fully-qualified name."⟩])) ∧
    ((parse name).isValid = true → (parse name).hasVersion = false →
      getTransport name parse fw dev =
        (Transport.EMPTY,
          [⟨.ERROR, "getTransport: " ++ (parse name).string ++
            " does not specify a version. Using default transport."⟩])) ∧
    ((parse name).isValid = true → (parse name).hasVersion = true →
      getTransport name parse fw dev =
        (if FQName.inPackage (parse name) "android.hidl" then
          getTransportFromManifest (parse name) "framework" fw
        else
          getTransportFromManifest (parse name) "device" dev)) := by
  refine ⟨fun h1 => ?_, fun h1 h2 => ?_, fun h1 h2 => ?_⟩ <;>
    simp [getTransport, h1]
  · simp [h2]
  · simp [h2]

/-- C3, witness: concrete instances of the three branches — an invalid
name, a version-less name, and a valid versioned name in the
`android.hidl` namespace (which is routed to the framework manifest). -/
theorem getTransport_dispatch_witness :
    getTransport "bad" (fun n => ⟨false, false, "", 0, 0, n⟩) none none =
      (Transport.EMPTY,
        [⟨.ERROR,
          "getTransport: bad is not a valid fully-qualified name."⟩]) ∧
    getTransport "foo" (fun _ => ⟨true, false, "foo", 0, 0, "foo"⟩)
        none none =
      (Transport.EMPTY,
        [⟨.ERROR,
          "getTransport: foo does not specify a version. Using default transport."⟩]) ∧
    getTransport "android.hidl.manager@1.0::IServiceManager"
        (fun _ => ⟨true, true, "android.hidl.manager", 1, 0,
          "android.hidl.manager@1.0::IServiceManager"⟩) none none =
      getTransportFromManifest
        ⟨true, true, "android.hidl.manager", 1, 0,
          "android.hidl.manager@1.0::IServiceManager"⟩ "framework" none := by
  refine ⟨(getTransport_dispatch "bad" _ none none).1 rfl,
    (getTransport_dispatch "foo" _ none none).2.1 rfl rfl, ?_⟩
  have h := (getTransport_dispatch "android.hidl.manager@1.0::IServiceManager"
    (fun _ => ⟨true, true, "android.hidl.manager", 1, 0,
      "android.hidl.manager@1.0::IServiceManager"⟩) none none).2.2 rfl rfl
  rw [h]
  have hin : FQName.inPackage
      ⟨true, true, "android.hidl.manager", 1, 0,
        "android.hidl.manager@1.0::IServiceManager"⟩ "android.hidl" = true := by
    decide
  rw [if_pos hin]

/-- C4: for a valid versioned name, the manifest lookup step
(`getTransportFromManifest`) returns EMPTY with a warning naming the
manifest label when the manifest handle is null; returns EMPTY with a
warning when the manifest is present but its entry for
(package, version) is EMPTY; and otherwise returns the manifest's entry
verbatim with a debug-level trace. -/
theorem getTransportFromManifest_cases (fq : FQName) (label : String) :
    (getTransportFromManifest fq label none =
      (Transport.EMPTY,
        [⟨.WARNING, "getTransportFromManifest: No " ++ label ++
          " manifest defined, using default transport for " ++
          fq.string⟩])) ∧
    (∀ m : HalManifest,
      m.getTransport fq.package
          ⟨fq.packageMajorVersion, fq.packageMinorVersion⟩ =
        Transport.EMPTY →
      getTransportFromManifest fq label (some m) =
        (Transport.EMPTY,
          [⟨.WARNING, "getTransportFromManifest: Cannot find entry " ++
            fq.string ++ " in " ++ label ++
            " manifest, using default transport."⟩])) ∧
    (∀ m : HalManifest,
      m.getTransport fq.package
          ⟨fq.packageMajorVersion, fq.packageMinorVersion⟩ ≠
        Transport.EMPTY →
      getTransportFromManifest fq label (some m) =
        (m.getTransport fq.package
          ⟨fq.packageMajorVersion, fq.packageMinorVersion⟩,
         [⟨.DEBUG, "getTransportFromManifest: " ++ fq.string ++
           " declares transport method " ++
           Transport.to_string (m.getTransport fq.package
             ⟨fq.packageMajorVersion, fq.packageMinorVersion⟩) ++
           " in " ++ label ++ " manifest"⟩])) := by
  refine ⟨rfl, fun m hm => ?_, fun m hm => ?_⟩ <;>
    simp [getTransportFromManifest, hm]

/-- C4, witness: concrete instances of the three branches, with the
always-EMPTY manifest for the missing-entry case and the
always-HWBINDER manifest for the verbatim case. -/
theorem getTransportFromManifest_cases_witness :
    getTransportFromManifest ⟨true, true, "vendor.acme.foo", 2, 1,
        "vendor.acme.foo@2.1::IFoo"⟩ "device" none =
      (Transport.EMPTY,
        [⟨.WARNING,
          "getTransportFromManifest: No device manifest defined, using default transport for vendor.acme.foo@2.1::IFoo"⟩]) ∧
    getTransportFromManifest ⟨true, true, "vendor.acme.foo", 2, 1,
        "vendor.acme.foo@2.1::IFoo"⟩ "device"
        (some ⟨fun _ _ => Transport.EMPTY⟩) =
      (Transport.EMPTY,
        [⟨.WARNING,
          "getTransportFromManifest: Cannot find entry vendor.acme.foo@2.1::IFoo in device manifest, using default transport."⟩]) ∧
    getTransportFromManifest ⟨true, true, "vendor.acme.foo", 2, 1,
        "vendor.acme.foo@2.1::IFoo"⟩ "device"
        (some ⟨fun _ _ => Transport.HWBINDER⟩) =
      (Transport.HWBINDER,
        [⟨.DEBUG,
          "getTransportFromManifest: vendor.acme.foo@2.1::IFoo declares transport method hwbinder in device manifest"⟩]) := by
  refine ⟨(getTransportFromManifest_cases _ "device").1, ?_, ?_⟩
  · exact (getTransportFromManifest_cases
      ⟨true, true, "vendor.acme.foo", 2, 1, "vendor.acme.foo@2.1::IFoo"⟩
      "device").2.1 ⟨fun _ _ => Transport.EMPTY⟩ rfl
  · exact (getTransportFromManifest_cases
      ⟨true, true, "vendor.acme.foo", 2, 1, "vendor.acme.foo@2.1::IFoo"⟩
      "device").2.2 ⟨fun _ _ => Transport.HWBINDER⟩ (by simp)

/-- C5: for every byte sequence B with |B| ≤ 2^32 − 1, `copyFrom`
(the common path of pointer+length and host-string construction) succeeds
and yields `size() == |B|`, a buffer holding exactly B followed by a zero
byte at offset |B|, and conversion back to a host string
(`operator std::string`) yields exactly B. -/
theorem hidl_string.copyFrom_roundtrip (b : List Nat) (a : Nat)
    (h : b.length ≤ 2 ^ 32 - 1) :
    hidl_string.copyFrom b a = some ⟨⟨a, b ++ [0]⟩, b.length, true⟩ ∧
    (⟨⟨a, b ++ [0]⟩, b.length, true⟩ : hidl_string).size = b.length ∧
    (b ++ [0]).take b.length = b ∧
    (b ++ [0]).drop b.length = [0] ∧
    (⟨⟨a, b ++ [0]⟩, b.length, true⟩ : hidl_string).toStdString = b := by
  refine ⟨?_, rfl, ?_, ?_, ?_⟩
  · have hn : ¬ b.length > UINT32_MAX := by
      simp only [UINT32_MAX]
      omega
    simp [hidl_string.copyFrom, hn]
  · simp
  · simp
  · simp [hidl_string.toStdString]

/-- C5, witness: the two-byte sequence "hi" (104, 105) at fresh
address 3. -/
theorem hidl_string.copyFrom_roundtrip_witness :
    hidl_string.copyFrom [104, 105] 3 =
      some ⟨⟨3, [104, 105, 0]⟩, 2, true⟩ ∧
    (⟨⟨3, [104, 105, 0]⟩, 2, true⟩ : hidl_string).size = 2 ∧
    (⟨⟨3, [104, 105, 0]⟩, 2, true⟩ : hidl_string).toStdString =
      [104, 105] := by
  have h := hidl_string.copyFrom_roundtrip [104, 105] 3 (by decide)
  exact ⟨h.1, h.2.1, h.2.2.2.2⟩

/-- C6: `hidl_handle` copy assignment (and, through it, copy
construction) always clones: a null source yields a null, non-owning
destination; a non-null source with a successful clone yields a
destination owning the clone (ownership true regardless of the source's
flag), and when the clone is a fresh pointer distinct from the source's,
destroying the destination emits close/delete only on the clone, leaving
the source's record untouched; a failed clone (null) is fatal;
self-assignment is a no-op. -/
theorem hidl_handle.copy_clones (this other : hidl_handle)
    (cloneResult : Option Nat) :
    (other.mHandle = none →
      hidl_handle.copyAssign this other cloneResult =
        .ok ⟨none, false⟩ (hidl_handle.freeHandle this).2) ∧
    (∀ b, other.mHandle = some b → cloneResult = none →
      hidl_handle.copyAssign this other cloneResult = .fatal) ∧
    (∀ a b, other.mHandle = some b → cloneResult = some a →
      hidl_handle.copyAssign this other cloneResult =
        .ok ⟨some a, true⟩ (hidl_handle.freeHandle this).2 ∧
      (a ≠ b →
        (some a ≠ other.mHandle ∧
         (hidl_handle.dtor ⟨some a, true⟩).2 =
           [.close a, .delete a] ∧
         HandleEvent.close b ∉ (hidl_handle.dtor ⟨some a, true⟩).2 ∧
         HandleEvent.delete b ∉ (hidl_handle.dtor ⟨some a, true⟩).2))) ∧
    hidl_handle.copyAssignSelf this = (this, []) := by
  refine ⟨fun h1 => ?_, fun b h1 h2 => ?_, fun a b h1 h2 => ⟨?_, ?_⟩, rfl⟩
  · simp [hidl_handle.copyAssign, h1]
  · simp [hidl_handle.copyAssign, h1, h2]
  · simp [hidl_handle.copyAssign, h1, h2]
  · intro hab
    refine ⟨by simp [h1, hab], rfl, ?_, ?_⟩ <;>
      simp [hidl_handle.dtor, hidl_handle.freeHandle, hab, Ne.symm hab]

/-- C6, witness: copying from a null source, a failed clone from record 5,
and a successful clone of record 5 to fresh record 7 over a destination
that owned record 3 (whose buffer is freed first); destroying the copy
touches only record 7. -/
theorem hidl_handle.copy_clones_witness :
    hidl_handle.copyAssign ⟨none, false⟩ ⟨none, true⟩ none =
      .ok ⟨none, false⟩ [] ∧
    hidl_handle.copyAssign ⟨none, false⟩ ⟨some 5, false⟩ none = .fatal ∧
    hidl_handle.copyAssign ⟨some 3, true⟩ ⟨some 5, false⟩ (some 7) =
      .ok ⟨some 7, true⟩ [.close 3, .delete 3] ∧
    (hidl_handle.dtor ⟨some 7, true⟩).2 = [.close 7, .delete 7] ∧
    HandleEvent.close 5 ∉ (hidl_handle.dtor ⟨some 7, true⟩).2 := by
  have h1 := (hidl_handle.copy_clones ⟨none, false⟩ ⟨none, true⟩ none).1 rfl
  have h2 := (hidl_handle.copy_clones ⟨none, false⟩ ⟨some 5, false⟩
    none).2.1 5 rfl rfl
  have h3 := (hidl_handle.copy_clones ⟨some 3, true⟩ ⟨some 5, false⟩
    (some 7)).2.2.1 7 5 rfl rfl
  have h4 := h3.2 (by decide)
  exact ⟨by simpa [hidl_handle.freeHandle] using h1, h2,
    by simpa [hidl_handle.freeHandle] using h3.1, h4.2.1, h4.2.2.1⟩

/-- C7: `hidl_handle` move assignment and move construction transfer the
record pointer and ownership flag to the destination and leave the source
null and non-owning; if the destination ends up owning a non-null record,
destroying it invokes close then delete on that record exactly once (a
second destruction emits nothing); self-move is a no-op. -/
theorem hidl_handle.move_transfers (this other : hidl_handle) :
    hidl_handle.moveAssign this other =
      (other, ⟨none, false⟩, (hidl_handle.freeHandle this).2) ∧
    hidl_handle.moveCtor other = (other, ⟨none, false⟩) ∧
    (∀ a, other.mHandle = some a → other.mOwnsHandle = true →
      (hidl_handle.dtor (hidl_handle.moveAssign this other).1).2 =
        [.close a, .delete a] ∧
      (hidl_handle.dtor
        (hidl_handle.dtor (hidl_handle.moveAssign this other).1).1).2 =
        []) ∧
    hidl_handle.moveAssignSelf this = this := by
  refine ⟨rfl, rfl, fun a h1 h2 => ?_, rfl⟩
  simp [hidl_handle.moveAssign, hidl_handle.dtor, hidl_handle.freeHandle,
    h1, h2]

/-- C7, witness: moving the owned record 4 out of `⟨some 4, true⟩` into a
destination that held nothing; destroying the destination closes and
deletes record 4 exactly once. -/
theorem hidl_handle.move_transfers_witness :
    hidl_handle.moveAssign ⟨none, false⟩ ⟨some 4, true⟩ =
      (⟨some 4, true⟩, ⟨none, false⟩, []) ∧
    (hidl_handle.dtor
      (hidl_handle.moveAssign ⟨none, false⟩ ⟨some 4, true⟩).1).2 =
      [.close 4, .delete 4] ∧
    (hidl_handle.dtor
      (hidl_handle.dtor
        (hidl_handle.moveAssign ⟨none, false⟩ ⟨some 4, true⟩).1).1).2 =
      [] := by
  have h := hidl_handle.move_transfers ⟨none, false⟩ ⟨some 4, true⟩
  have h3 := h.2.2.1 4 rfl rfl
  exact ⟨by simpa [hidl_handle.freeHandle] using h.1, h3.1, h3.2⟩

/-- C8: for every reachable `hidl_string` and every external buffer p
with length n ≤ 2^32 − 1, `setToExternal(p, n)` first clears the current
state — freeing the old buffer exactly when it was owned — and then
adopts p as a borrowed buffer of length n with ownership false, so a
subsequent `clear()` or destruction of the value frees nothing (in
particular it never frees p). -/
theorem hidl_string.setToExternal_borrows (s : hidl_string)
    (hs : ReachableStr s) (d : HBuffer) (n : Nat)
    (h : n ≤ 2 ^ 32 - 1) :
    hidl_string.setToExternal s d n =
      .ok ⟨d, n, false⟩
        (if s.mOwnsBuffer then some s.mBuffer.addr else none) ∧
    (hidl_string.clear ⟨d, n, false⟩).2 = none ∧
    (hidl_string.dtor ⟨d, n, false⟩).2 = none := by
  have hn : ¬ n > UINT32_MAX := by
    simp only [UINT32_MAX]
    omega
  refine ⟨?_, rfl, rfl⟩
  simp only [hidl_string.setToExternal, hn, if_false, hidl_string.clear]
  cases how : s.mOwnsBuffer with
  | false => simp [how]
  | true => simp [how, hs.owned_addr_ne how]

/-- C8, witness: the owned one-byte string at address 1 (built by
`copyFrom`) adopting the caller buffer at address 9 with length 2: the
old owned buffer is freed by the embedded clear, the result borrows, and
clearing or destroying the result frees nothing. -/
theorem hidl_string.setToExternal_borrows_witness :
    hidl_string.setToExternal ⟨⟨1, [65, 0]⟩, 1, true⟩ ⟨9, [1, 2]⟩ 2 =
      .ok ⟨⟨9, [1, 2]⟩, 2, false⟩ (some 1) ∧
    (hidl_string.clear ⟨⟨9, [1, 2]⟩, 2, false⟩).2 = none ∧
    (hidl_string.dtor ⟨⟨9, [1, 2]⟩, 2, false⟩).2 = none := by
  have h := hidl_string.setToExternal_borrows ⟨⟨1, [65, 0]⟩, 1, true⟩
    (ReachableStr.copyOp [65] 1 (by decide) _ (by decide))
    ⟨9, [1, 2]⟩ 2 (by decide)
  simpa using h

/-- C9: `setToExternal(data, n)` performs its fatal size check before
calling `clear()`, so for n > 2^32 − 1 the abort happens with the
`hidl_string`'s buffer pointer, length, and ownership flag exactly as
they were before the call (the fatal outcome carries the unchanged
state). -/
theorem hidl_string.setToExternal_fatal_atomic (s : hidl_string)
    (d : HBuffer) (n : Nat) (h : n > 2 ^ 32 - 1) :
    hidl_string.setToExternal s d n = .fatal s := by
  have hn : n > UINT32_MAX := by
    simp only [UINT32_MAX]
    omega
  simp [hidl_string.setToExternal, hn]

/-- C9, witness: `setToExternal` with length 2^32 on the owned one-byte
string aborts with the state untouched (in particular the old buffer has
not been freed and is still owned). -/
theorem hidl_string.setToExternal_fatal_atomic_witness :
    hidl_string.setToExternal ⟨⟨1, [65, 0]⟩, 1, true⟩ ⟨9, [1, 2]⟩
      (2 ^ 32) = .fatal ⟨⟨1, [65, 0]⟩, 1, true⟩ :=
  hidl_string.setToExternal_fatal_atomic ⟨⟨1, [65, 0]⟩, 1, true⟩
    ⟨9, [1, 2]⟩ (2 ^ 32) (by decide)

/-- C10: after a move (`moveFrom`, underlying both move construction and
move assignment), the source keeps its buffer pointer and length but its
ownership flag is false; consequently clearing or destroying the
moved-from source frees nothing — the transferred buffer is released at
most once, by the destination, which holds the source's original
fields. -/
theorem hidl_string.moved_from_never_frees (x : hidl_string) :
    ((hidl_string.moveFrom x).2).mOwnsBuffer = false ∧
    ((hidl_string.moveFrom x).2).mBuffer = x.mBuffer ∧
    ((hidl_string.moveFrom x).2).mSize = x.mSize ∧
    (hidl_string.clear (hidl_string.moveFrom x).2).2 = none ∧
    (hidl_string.dtor (hidl_string.moveFrom x).2).2 = none ∧
    (hidl_string.moveFrom x).1 = x := by
  refine ⟨rfl, rfl, rfl, ?_, ?_, rfl⟩ <;>
    simp [hidl_string.moveFrom, hidl_string.clear, hidl_string.dtor]
